import Mathlib

/-!
Verification of the claude-island hook script
(src/ClaudeIsland/Resources/claude-island-state.py).

The script reads one JSON event record from standard input, normalizes it to
a canonical state, delivers it over a Unix or TCP socket, and for permission
requests blocks for a decision reply.  This file gives a shallow embedding of
the script's data flow in Lean and proves or refutes the specification claims
about it.

Modelling conventions:
* JSON documents are the inductive type JValue; numbers are modelled as
  integers (the claims never exercise fractional numbers, and floating point
  is outside the embedding).
* Python dictionaries built from JSON objects are association lists; lookup
  takes the last binding, matching the json module (later duplicate keys win).
* Python truthiness, str(), dict.get and string strip are modelled by the
  py-prefixed helpers below.
* Byte strings are lists of naturals; bytes.decode() is modelled by a strict
  UTF-8 decoder (CPython rejects surrogates, overlongs and stray
  continuation bytes in strict mode, as the decoder below does).
* json.loads is modelled by a fuel-bounded recursive-descent routine over the
  character list; the fuel is generous enough never to run out on inputs the
  theorems touch.  The json module's nonstandard NaN and Infinity literals
  are not modelled (floating point again).
-/

/-- A JSON document as produced by json.load / json.loads. -/
inductive JValue where
  | null : JValue
  | bool : Bool → JValue
  | num : Int → JValue
  | str : String → JValue
  | arr : List JValue → JValue
  | obj : List (String × JValue) → JValue

/-- Python truthiness of a JSON-derived value: None, False, 0, empty string,
empty list and empty dict are falsy, everything else truthy. -/
def pyTruthy : JValue → Bool
  | .null => false
  | .bool b => b
  | .num n => n != 0
  | .str s => !s.isEmpty
  | .arr xs => !xs.isEmpty
  | .obj kvs => !kvs.isEmpty

/-- dict lookup on a JSON object's binding list; the last binding for a key
wins, matching how the json module builds the dict. -/
def pyGet (kvs : List (String × JValue)) (k : String) : Option JValue :=
  match kvs with
  | [] => none
  | (k0, v0) :: rest =>
    match pyGet rest k with
    | some v => some v
    | none => if k0 == k then some v0 else none

/-- dict.get with a default. -/
def pyGetD (kvs : List (String × JValue)) (k : String) (d : JValue) : JValue :=
  (pyGet kvs k).getD d

/-- Equality test of a JSON value against a string literal, as Python ==
behaves when the right operand is a str: only equal strings compare equal. -/
def jEqS (v : JValue) (s : String) : Bool :=
  match v with
  | .str t => t == s
  | _ => false

/-- A single apostrophe, used by the Python repr of strings. -/
def pySq : String := String.singleton (Char.ofNat 39)

mutual

/-- Python repr() of a JSON-derived value (str() falls back to this for
non-string values).  Escaping inside repr'd strings is not modelled; no
theorem depends on it. -/
def pyRepr : JValue → String
  | .null => "None"
  | .bool true => "True"
  | .bool false => "False"
  | .num n => toString n
  | .str s => pySq ++ s ++ pySq
  | .arr xs => "[" ++ pyReprElems xs ++ "]"
  | .obj kvs => "\x7b" ++ pyReprKVs kvs ++ "\x7d"

/-- Comma-separated reprs of list elements. -/
def pyReprElems : List JValue → String
  | [] => ""
  | [x] => pyRepr x
  | x :: xs => pyRepr x ++ ", " ++ pyReprElems xs

/-- Comma-separated reprs of dict entries. -/
def pyReprKVs : List (String × JValue) → String
  | [] => ""
  | [(k, v)] => pySq ++ k ++ pySq ++ ": " ++ pyRepr v
  | (k, v) :: kvs => pySq ++ k ++ pySq ++ ": " ++ pyRepr v ++ ", " ++ pyReprKVs kvs

end

/-- Python str() of a JSON-derived value. -/
def pyStr : JValue → String
  | .str s => s
  | v => pyRepr v

/-- The whitespace characters stripped by Python str.strip(). -/
def isPyWs (c : Char) : Bool :=
  c == ' ' || c == '\t' || c == '\n' || c == '\r' || c == '\x0b' || c == '\x0c'

/-- Whether line.strip() is empty, i.e. the line is blank. -/
def pyStripIsEmpty (s : String) : Bool :=
  s.data.all isPyWs

/-! ### Strict UTF-8 decoding (bytes.decode of CPython) -/

/-- Is a byte a UTF-8 continuation byte. -/
def utf8Cont (b : Nat) : Bool := 0x80 ≤ b && b ≤ 0xBF

/-- Strict UTF-8 decoding of a byte list, fuel-bounded; rejects overlong
forms, surrogates, out-of-range code points and stray bytes exactly as the
strict errors mode of bytes.decode does. -/
def utf8DecodeAux : Nat → List Nat → Option (List Char)
  | _, [] => some []
  | 0, _ => none
  | Nat.succ fuel, b :: rest =>
    if b < 0x80 then
      (utf8DecodeAux fuel rest).map (Char.ofNat b :: ·)
    else if 0xC2 ≤ b && b ≤ 0xDF then
      match rest with
      | c :: rest2 =>
        if utf8Cont c then
          (utf8DecodeAux fuel rest2).map
            (Char.ofNat ((b - 0xC0) * 0x40 + (c - 0x80)) :: ·)
        else none
      | [] => none
    else if (b == 0xE0 || (0xE1 ≤ b && b ≤ 0xEF)) then
      match rest with
      | c :: d :: rest2 =>
        let contLo : Nat := if b == 0xE0 then 0xA0 else 0x80
        let contHi : Nat := if b == 0xED then 0x9F else 0xBF
        if (contLo ≤ c && c ≤ contHi) && utf8Cont d then
          (utf8DecodeAux fuel rest2).map
            (Char.ofNat ((b - 0xE0) * 0x1000 + (c - 0x80) * 0x40 + (d - 0x80)) :: ·)
        else none
      | _ => none
    else if (b == 0xF0 || (0xF1 ≤ b && b ≤ 0xF4)) then
      match rest with
      | c :: d :: e :: rest2 =>
        let contLo : Nat := if b == 0xF0 then 0x90 else 0x80
        let contHi : Nat := if b == 0xF4 then 0x8F else 0xBF
        if ((contLo ≤ c && c ≤ contHi) && utf8Cont d) && utf8Cont e then
          (utf8DecodeAux fuel rest2).map
            (Char.ofNat ((b - 0xF0) * 0x40000 + (c - 0x80) * 0x1000
              + (d - 0x80) * 0x40 + (e - 0x80)) :: ·)
        else none
      | _ => none
    else none

/-- bytes.decode() in strict UTF-8 mode; none models UnicodeDecodeError. -/
def decodeUtf8 (bs : List Nat) : Option String :=
  (utf8DecodeAux (bs.length + 1) bs).map fun cs => ⟨cs⟩

/-- The UTF-8 bytes of an ASCII string, used to build concrete wire replies
in witnesses. -/
def asciiBytes (s : String) : List Nat :=
  s.data.map Char.toNat

/-! ### json.loads as a fuel-bounded recursive-descent routine -/

/-- Skip the JSON whitespace characters accepted between tokens. -/
def skipWs : List Char → List Char
  | c :: cs => if c == ' ' || c == '\t' || c == '\n' || c == '\r' then skipWs cs else c :: cs
  | [] => []

/-- Hex digit value. -/
def hexVal (c : Char) : Option Nat :=
  if c.isDigit then some (c.toNat - 48)
  else if 'a' ≤ c && c ≤ 'f' then some (c.toNat - 87)
  else if 'A' ≤ c && c ≤ 'F' then some (c.toNat - 55)
  else none

/-- Body of a JSON string literal after the opening quote, accumulating
decoded characters.  Control characters must be escaped; the common escapes
and non-surrogate \uXXXX forms are decoded.  Lone surrogates (which CPython
tolerates but Lean strings cannot represent) are rejected; no theorem
touches them. -/
def pQStringAux : Nat → List Char → List Char → Option (String × List Char)
  | 0, _, _ => none
  | Nat.succ fuel, acc, cs =>
    match cs with
    | [] => none
    | '"' :: rest => some (⟨acc.reverse⟩, rest)
    | '\\' :: e :: rest =>
      match e with
      | '"' => pQStringAux fuel ('"' :: acc) rest
      | '\\' => pQStringAux fuel ('\\' :: acc) rest
      | '/' => pQStringAux fuel ('/' :: acc) rest
      | 'b' => pQStringAux fuel ('\x08' :: acc) rest
      | 'f' => pQStringAux fuel ('\x0c' :: acc) rest
      | 'n' => pQStringAux fuel ('\n' :: acc) rest
      | 'r' => pQStringAux fuel ('\r' :: acc) rest
      | 't' => pQStringAux fuel ('\t' :: acc) rest
      | 'u' =>
        match rest with
        | h1 :: h2 :: h3 :: h4 :: rest2 =>
          match hexVal h1, hexVal h2, hexVal h3, hexVal h4 with
          | some a, some b, some c, some d =>
            let code := ((a * 16 + b) * 16 + c) * 16 + d
            if 0xD800 ≤ code && code ≤ 0xDFFF then none
            else pQStringAux fuel (Char.ofNat code :: acc) rest2
          | _, _, _, _ => none
        | _ => none
      | _ => none
    | c :: rest =>
      if c.toNat < 0x20 then none
      else pQStringAux fuel (c :: acc) rest

/-- A JSON string literal after the opening quote. -/
def pQString (cs : List Char) : Option (String × List Char) :=
  pQStringAux (cs.length + 1) [] cs

/-- Digits to a natural number. -/
def digitsToNat (ds : List Char) : Nat :=
  ds.foldl (fun n c => n * 10 + (c.toNat - 48)) 0

/-- A JSON number.  Integer syntax only: a fraction or exponent makes the
parse fail (floating point is not modelled); json's leading-zero rule is
enforced. -/
def pNum (cs : List Char) : Option (JValue × List Char) :=
  let (negSign, cs1) :=
    match cs with
    | '-' :: rest => (true, rest)
    | _ => (false, cs)
  let ds := cs1.takeWhile Char.isDigit
  let rest := cs1.dropWhile Char.isDigit
  if ds.isEmpty then none
  else if ds.head? == some '0' && ds.length != 1 then none
  else
    match rest with
    | '.' :: _ => none
    | 'e' :: _ => none
    | 'E' :: _ => none
    | _ =>
      let n : Int := Int.ofNat (digitsToNat ds)
      some (.num (if negSign then -n else n), rest)

mutual

/-- One JSON value, consuming leading whitespace. -/
def pVal : Nat → List Char → Option (JValue × List Char)
  | 0, _ => none
  | Nat.succ fuel, cs =>
    match skipWs cs with
    | 'n' :: 'u' :: 'l' :: 'l' :: rest => some (.null, rest)
    | 't' :: 'r' :: 'u' :: 'e' :: rest => some (.bool true, rest)
    | 'f' :: 'a' :: 'l' :: 's' :: 'e' :: rest => some (.bool false, rest)
    | '"' :: rest => (pQString rest).map fun p => (.str p.1, p.2)
    | '[' :: rest =>
      match skipWs rest with
      | ']' :: rest2 => some (.arr [], rest2)
      | rest2 => (pElems fuel rest2).map fun p => (.arr p.1, p.2)
    | '\x7b' :: rest =>
      match skipWs rest with
      | '\x7d' :: rest2 => some (.obj [], rest2)
      | rest2 => (pMembers fuel rest2).map fun p => (.obj p.1, p.2)
    | c :: rest =>
      if c == '-' || c.isDigit then pNum (c :: rest) else none
    | [] => none

/-- Comma-separated array elements up to the closing bracket. -/
def pElems : Nat → List Char → Option (List JValue × List Char)
  | 0, _ => none
  | Nat.succ fuel, cs =>
    match pVal fuel cs with
    | none => none
    | some (v, rest) =>
      match skipWs rest with
      | ',' :: rest2 => (pElems fuel rest2).map fun p => (v :: p.1, p.2)
      | ']' :: rest2 => some ([v], rest2)
      | _ => none

/-- Comma-separated object members up to the closing brace. -/
def pMembers : Nat → List Char → Option (List (String × JValue) × List Char)
  | 0, _ => none
  | Nat.succ fuel, cs =>
    match skipWs cs with
    | '"' :: rest =>
      match pQString rest with
      | none => none
      | some (k, rest2) =>
        match skipWs rest2 with
        | ':' :: rest3 =>
          match pVal fuel rest3 with
          | none => none
          | some (v, rest4) =>
            match skipWs rest4 with
            | ',' :: rest5 => (pMembers fuel rest5).map fun p => ((k, v) :: p.1, p.2)
            | '\x7d' :: rest5 => some ([(k, v)], rest5)
            | _ => none
        | _ => none
    | _ => none

end

/-- json.loads: parse a whole document, tolerating surrounding whitespace
and rejecting trailing garbage. -/
def pyJsonLoads (s : String) : Option JValue :=
  let cs := s.data
  match pVal (2 * cs.length + 8) cs with
  | some (v, rest) => if (skipWs rest).isEmpty then some v else none
  | none => none

/-! ### Filesystem model and the log tail reader
(get_jsonl_path and parse_jsonl_messages of the source) -/

/-- A file under a project directory: its name and the outcome of reading it.
content = some lines models a successful open+readlines (each element one
line); content = none models any OSError or UnicodeDecodeError raised while
opening or reading, which the reader's outer except absorbs. -/
structure PFile where
  name : String
  content : Option (List String)

/-- An entry of the per-user log root (~/.claude/projects), in the order
iterdir yields them. -/
structure PDir where
  dirName : String
  isDir : Bool
  files : List PFile

/-- The slice of the filesystem the script looks at. -/
structure Fs where
  claudeDirExists : Bool
  projectDirs : List PDir

/-- First file named fname inside a directory. -/
def findFileNamed (files : List PFile) (fname : String) : Option PFile :=
  match files with
  | [] => none
  | f :: rest => if f.name == fname then some f else findFileNamed rest fname

/-- The source's directory scan: the first project directory that is a
directory and contains a file named fname yields that file. -/
def searchDirs (dirs : List PDir) (fname : String) : Option PFile :=
  match dirs with
  | [] => none
  | d :: rest =>
    if d.isDir then
      match findFileNamed d.files fname with
      | some f => some f
      | none => searchDirs rest fname
    else searchDirs rest fname

/-- get_jsonl_path of the source.  A falsy cwd skips the whole search and
returns None.  A truthy non-string cwd raises AttributeError at
cwd.replace, modelled as the error case (the function has no handler).
The source also computes cwd_encoded and cwd_last from a string cwd and
never uses either; on a str both operations are total, so they are omitted
here as they have no effect. -/
def get_jsonl_path (fs : Fs) (session_id : JValue) (cwd : JValue) :
    Except Unit (Option PFile) :=
  if pyTruthy cwd then
    match cwd with
    | .str _ =>
      .ok (if fs.claudeDirExists then
             searchDirs fs.projectDirs (pyStr session_id ++ ".jsonl")
           else none)
    | _ => .error ()
  else .ok none

/-- A conversation turn extracted from the log. -/
structure Msg where
  role : String
  content : JValue

/-- Require every element to be a string, as str.join does; none models the
TypeError join raises on a non-string element. -/
def allStrings : List JValue → Option (List String)
  | [] => some []
  | .str s :: rest => (allStrings rest).map (s :: ·)
  | _ => none

/-- The content blocks a responder entry turns into text parts: dict blocks
whose type field equals "text" contribute their text field. -/
def textBlocks (blocks : List JValue) : List JValue :=
  blocks.filterMap fun b =>
    match b with
    | .obj bkvs =>
      if jEqS (pyGetD bkvs "type" .null) "text" then some (pyGetD bkvs "text" (.str ""))
      else none
    | _ => none

/-- The per-entry step of the reader's loop (lines 77 to 107 of the source)
for one parsed JSON document.  .ok (some m) appends a turn, .ok none
appends nothing, .error models an exception the inner except does not
catch (AttributeError on a non-dict entry, TypeError from joining
non-string text parts), which aborts the whole loop via the outer except. -/
def processEntry (entry : JValue) : Except Unit (Option Msg) :=
  match entry with
  | .obj ekvs =>
    let msgType := pyGetD ekvs "type" .null
    if jEqS msgType "user" then
      let content := pyGetD ekvs "message" (.obj [])
      let text : JValue :=
        match content with
        | .obj ckvs => pyGetD ckvs "content" (.str "")
        | _ => .str (pyStr content)
      .ok (if pyTruthy text then some ⟨"user", text⟩ else none)
    else if jEqS msgType "assistant" then
      let content := pyGetD ekvs "message" (.obj [])
      match content with
      | .obj ckvs =>
        match pyGetD ckvs "content" (.arr []) with
        | .arr blocks =>
          match allStrings (textBlocks blocks) with
          | some parts =>
            let text := String.intercalate "\n" parts
            .ok (if text.isEmpty then none else some ⟨"assistant", .str text⟩)
          | none => .error ()
        | blocks =>
          let text := pyStr blocks
          .ok (if text.isEmpty then none else some ⟨"assistant", .str text⟩)
      | _ =>
        let text := pyStr content
        .ok (if text.isEmpty then none else some ⟨"assistant", .str text⟩)
    else .ok none
  | _ => .error ()

/-- What one iteration of the reader's loop does with a line: a blank line
and a line failing json.loads are skipped (some none), a parsed entry
either contributes its turn (some (some m)) or faults (none, the exception
the inner except does not catch). -/
def lineStep (line : String) : Option (Option Msg) :=
  if pyStripIsEmpty line then some none
  else
    match pyJsonLoads line with
    | none => some none
    | some entry =>
      match processEntry entry with
      | .error _ => none
      | .ok m => some m

/-- The reader's line loop: skipped lines contribute nothing, turns are
appended in order, and a faulting line ends the loop keeping the turns
gathered so far (the outer except then falls through to the final
return). -/
def extractLoop : List String → List Msg → List Msg
  | [], acc => acc
  | line :: rest, acc =>
    match lineStep line with
    | none => acc
    | some none => extractLoop rest acc
    | some (some m) => extractLoop rest (acc ++ [m])

/-- Python's xs[-limit:] for a nonnegative limit: the last limit elements,
except that limit = 0 yields the whole list (a negative-zero slice). -/
def pyTailSlice (xs : List α) (limit : Nat) : List α :=
  if limit == 0 then xs else xs.drop (xs.length - limit)

/-- parse_jsonl_messages of the source.  The argument carries the locate
outcome: none models both a None path and a path whose exists() is false
(the source returns [] for either before opening the file). -/
def parse_jsonl_messages (jsonl_path : Option PFile) (limit : Nat) : List Msg :=
  match jsonl_path with
  | none => []
  | some f =>
    match f.content with
    | none => []
    | some lines =>
      let msgs := extractLoop (pyTailSlice lines 100) []
      if msgs.isEmpty then [] else pyTailSlice msgs limit

/-! ### Transport selection (get_connection_config, is_remote_session) -/

/-- Process-wide configuration: the two environment variables the script
reads.  The port is carried as the integer int() yields; a set-but-unparseable
port raises ValueError inside send_event's try, a path outside every claim,
so it is not modelled. -/
structure Env where
  host : Option String
  port : Option Int

/-- The fixed local rendezvous path. -/
def SOCKET_PATH : String := "/tmp/claude-island.sock"

/-- The default TCP port. -/
def DEFAULT_TCP_PORT : Int := 52945

/-- A selected transport endpoint. -/
inductive ConnCfg where
  | unix : String → ConnCfg
  | tcp : String → Int → ConnCfg

/-- get_connection_config of the source: the host value is tested for
truthiness, so an unset variable and an empty string both select the Unix
socket. -/
def get_connection_config (env : Env) : ConnCfg :=
  match env.host with
  | some h => if h.isEmpty then .unix SOCKET_PATH else .tcp h (env.port.getD DEFAULT_TCP_PORT)
  | none => .unix SOCKET_PATH

/-- is_remote_session of the source: an is-not-None test, so an empty string
counts as remote here even though get_connection_config selects Unix. -/
def is_remote_session (env : Env) : Bool :=
  env.host.isSome

/-! ### The canonical state and the delivery engine (send_event) -/

/-- The canonical state dictionary the script builds.  Option fields model
keys that may be absent from the dict; some .null models a key explicitly
set to None (the source does set tool and notification_type to None when
the raw record lacks them). -/
structure CanonState where
  session_id : JValue
  cwd : JValue
  event : JValue
  pid : Nat
  tty : Option String
  status : String
  message : Option JValue
  tool : Option JValue
  tool_input : Option JValue
  tool_use_id : Option JValue
  notification_type : Option JValue
  conversation : Option (List Msg)

/-- Socket operations in the order send_event performs them. -/
inductive SockOp where
  | connect : SockOp
  | sendall : SockOp
  | recv : SockOp
  | close : SockOp

deriving instance DecidableEq for SockOp

/-- One invocation's transport behaviour, as the single connection the
script ever opens observes it: whether connect succeeds, whether sendall
succeeds, and what recv yields (none models an exception during recv, for
instance the 300 second timeout firing or a reset; some bs is the reply
byte string, possibly empty). -/
structure Transport where
  connectOk : Bool
  sendOk : Bool
  recv : Option (List Nat)

/-- send_event of the source.  The first component is the returned value:
.ok models a normal return (some parsed reply or None), .error models an
exception escaping send_event — the only one possible with a typed port is
the UnicodeDecodeError from response.decode(), which the except clause
(socket.error, OSError, json.JSONDecodeError) does not cover.  The second
component is the trace of socket operations attempted.  A failure of
close() itself would be caught and still yield None, so it is not given a
failure flag. -/
def send_event (env : Env) (tp : Transport) (state : CanonState) :
    Except Unit (Option JValue) × List SockOp :=
  let _ := get_connection_config env
  if !tp.connectOk then (.ok none, [.connect])
  else if !tp.sendOk then (.ok none, [.connect, .sendall])
  else if state.status == "waiting_for_approval" then
    match tp.recv with
    | none => (.ok none, [.connect, .sendall, .recv])
    | some bs =>
      if bs.isEmpty then (.ok none, [.connect, .sendall, .recv, .close])
      else
        match decodeUtf8 bs with
        | none => (.error (), [.connect, .sendall, .recv, .close])
        | some s =>
          match pyJsonLoads s with
          | none => (.ok none, [.connect, .sendall, .recv, .close])
          | some v => (.ok (some v), [.connect, .sendall, .recv, .close])
  else (.ok none, [.connect, .sendall, .close])

/-- The value send_event hands back to main. -/
def mainReply (env : Env) (tp : Transport) (state : CanonState) :
    Except Unit (Option JValue) :=
  (send_event env tp state).1

/-! ### The event normalizer (the elif chain of main, lines 192 to 314) -/

/-- Outcome of the dispatch on the event category: the suppressed
notification exits before a status is ever assigned, the permission request
enters the blocking round trip, and every other category falls through to
the fire-and-forget send. -/
inductive DispatchResult where
  | suppressed : DispatchResult
  | permission : CanonState → DispatchResult
  | normal : CanonState → DispatchResult

/-- The truthiness-based or-chain data.get("message") or data.get("prompt")
or data.get("user_prompt"). -/
def pyOr3 (kvs : List (String × JValue)) (k1 k2 k3 : String) : JValue :=
  let m1 := pyGetD kvs k1 .null
  if pyTruthy m1 then m1
  else
    let m2 := pyGetD kvs k2 .null
    if pyTruthy m2 then m2 else pyGetD kvs k3 .null

/-- The truthiness-based or-chain data.get("stop_reason") or
data.get("message"). -/
def pyOr2 (kvs : List (String × JValue)) (k1 k2 : String) : JValue :=
  let m1 := pyGetD kvs k1 .null
  if pyTruthy m1 then m1 else pyGetD kvs k2 .null

/-- The event-category dispatch of main over the parsed record's bindings:
builds the state dict and assigns the status, extra fields and control
outcome exactly as the elif chain does. -/
def dispatch (kvs : List (String × JValue)) (pid : Nat) (tty : Option String) :
    DispatchResult :=
  let session_id := pyGetD kvs "session_id" (.str "unknown")
  let event := pyGetD kvs "hook_event_name" (.str "")
  let cwd := pyGetD kvs "cwd" (.str "")
  let tool_input := pyGetD kvs "tool_input" (.obj [])
  let base : CanonState :=
    { session_id := session_id, cwd := cwd, event := event, pid := pid,
      tty := tty, status := "", message := none, tool := none,
      tool_input := none, tool_use_id := none, notification_type := none,
      conversation := none }
  if jEqS event "UserPromptSubmit" then
    let user_message := pyOr3 kvs "message" "prompt" "user_prompt"
    .normal { base with
      status := "processing",
      message := if pyTruthy user_message then some user_message else none }
  else if jEqS event "PreToolUse" then
    let tuid := pyGetD kvs "tool_use_id" .null
    .normal { base with
      status := "running_tool",
      tool := some (pyGetD kvs "tool_name" .null),
      tool_input := some tool_input,
      tool_use_id := if pyTruthy tuid then some tuid else none }
  else if jEqS event "PostToolUse" then
    let tuid := pyGetD kvs "tool_use_id" .null
    .normal { base with
      status := "processing",
      tool := some (pyGetD kvs "tool_name" .null),
      tool_input := some tool_input,
      tool_use_id := if pyTruthy tuid then some tuid else none }
  else if jEqS event "PermissionRequest" then
    .permission { base with
      status := "waiting_for_approval",
      tool := some (pyGetD kvs "tool_name" .null),
      tool_input := some tool_input }
  else if jEqS event "Notification" then
    let nt := pyGetD kvs "notification_type" .null
    if jEqS nt "permission_prompt" then .suppressed
    else
      .normal { base with
        status := if jEqS nt "idle_prompt" then "waiting_for_input" else "notification",
        notification_type := some nt,
        message := some (pyGetD kvs "message" .null) }
  else if jEqS event "Stop" then
    let stop_reason := pyOr2 kvs "stop_reason" "message"
    .normal { base with
      status := "waiting_for_input",
      message := if pyTruthy stop_reason then some stop_reason else none }
  else if jEqS event "SubagentStop" then
    .normal { base with status := "waiting_for_input" }
  else if jEqS event "SessionStart" then
    .normal { base with status := "waiting_for_input" }
  else if jEqS event "SessionEnd" then
    .normal { base with status := "ended" }
  else if jEqS event "PreCompact" then
    .normal { base with status := "compacting" }
  else
    .normal { base with status := "unknown" }

/-- The status the dispatch assigns, when it assigns one. -/
def statusOf : DispatchResult → Option String
  | .suppressed => none
  | .permission st => some st.status
  | .normal st => some st.status

/-! ### The whole invocation (main) -/

/-- How the process ends: a clean sys.exit with a code, or an uncaught
exception (CPython then exits with status 1 after printing a traceback to
standard error). -/
inductive ExitStatus where
  | clean : Nat → ExitStatus
  | crashed : ExitStatus

deriving instance DecidableEq for ExitStatus

/-- Everything observable about one invocation: how it exited, the JSON
documents printed to standard output, the states written to a socket, how
many connections were attempted, and whether the log tail reader was
invoked. -/
structure RunResult where
  exit : ExitStatus
  stdout : List JValue
  sent : List CanonState
  connAttempts : Nat
  logReaderInvoked : Bool

/-- The decision artifact printed on an allow reply. -/
def allowDoc : JValue :=
  .obj [("hookSpecificOutput", .obj
    [("hookEventName", .str "PermissionRequest"),
     ("decision", .obj [("behavior", .str "allow")])])]

/-- The default justification text of the deny artifact. -/
def DENY_DEFAULT : String := "Denied by user via ClaudeIsland"

/-- The decision artifact printed on a deny reply: the message is the reason
when truthy, the default text otherwise. -/
def denyDoc (reason : JValue) : JValue :=
  .obj [("hookSpecificOutput", .obj
    [("hookEventName", .str "PermissionRequest"),
     ("decision", .obj
       [("behavior", .str "deny"),
        ("message", if pyTruthy reason then reason else .str DENY_DEFAULT)])])]

/-- How main reacts to the value send_event hands back on the permission
path (lines 247 to 277): the exit status and the documents printed.  A
truthy non-dict reply crashes at response.get, and an escaping exception
from send_event crashes before that. -/
def permissionOutcome (r : Except Unit (Option JValue)) :
    ExitStatus × List JValue :=
  match r with
  | .error _ => (.crashed, [])
  | .ok none => (.clean 0, [])
  | .ok (some v) =>
    if pyTruthy v then
      match v with
      | .obj rkvs =>
        if jEqS (pyGetD rkvs "decision" (.str "ask")) "allow" then
          (.clean 0, [allowDoc])
        else if jEqS (pyGetD rkvs "decision" (.str "ask")) "deny" then
          (.clean 0, [denyDoc (pyGetD rkvs "reason" (.str ""))])
        else (.clean 0, [])
      | _ => (.crashed, [])
    else (.clean 0, [])

/-- The permission-request round trip (lines 245 to 277): one connection
attempt, the state sent, and the outcome of the decision. -/
def permissionRun (env : Env) (tp : Transport) (st : CanonState) : RunResult :=
  ⟨(permissionOutcome (mainReply env tp st)).1,
   (permissionOutcome (mainReply env tp st)).2, [st], 1, false⟩

/-- The final fire-and-forget send (line 325): the returned value is
discarded, so only an escaping exception would be visible; flag records
whether the log tail reader ran earlier in this invocation. -/
def fireAndForget (env : Env) (tp : Transport) (st : CanonState) (flag : Bool) :
    RunResult :=
  ⟨match mainReply env tp st with
    | .error _ => .crashed
    | .ok _ => .clean 0,
   [], [st], 1, flag⟩

/-- The four categories that trigger the conversation attach. -/
def eventIn4 (event : JValue) : Bool :=
  jEqS event "Stop" || jEqS event "UserPromptSubmit" ||
  jEqS event "SessionStart" || jEqS event "Notification"

/-- The conversation attach block (lines 317 to 322) followed by the final
send: for a remote session on one of the four categories the log is
located and read with limit 20, and a non-empty result is attached. -/
def normalRun (env : Env) (fs : Fs) (tp : Transport)
    (kvs : List (String × JValue)) (st : CanonState) : RunResult :=
  let session_id := pyGetD kvs "session_id" (.str "unknown")
  let event := pyGetD kvs "hook_event_name" (.str "")
  let cwd := pyGetD kvs "cwd" (.str "")
  if is_remote_session env && eventIn4 event then
    match get_jsonl_path fs session_id cwd with
    | .error _ => ⟨.crashed, [], [], 0, true⟩
    | .ok none => fireAndForget env tp st true
    | .ok (some f) =>
      let msgs := parse_jsonl_messages (some f) 20
      let st2 := if msgs.isEmpty then st else { st with conversation := some msgs }
      fireAndForget env tp st2 true
  else fireAndForget env tp st false

/-- main applied to a record that parsed to a JSON object. -/
def runMainObj (env : Env) (fs : Fs) (tp : Transport) (pid : Nat)
    (tty : Option String) (kvs : List (String × JValue)) : RunResult :=
  match dispatch kvs pid tty with
  | .suppressed => ⟨.clean 0, [], [], 0, false⟩
  | .permission st => permissionRun env tp st
  | .normal st => normalRun env fs tp kvs st

/-- One whole invocation of the script.  pid is the parent process id and
tty the outcome of the best-effort terminal resolution, both passed in as
oracles (no claim touches their internals).  Unparseable standard input is
sys.exit(1); input that parses to a non-object crashes at data.get with
AttributeError. -/
def runMain (env : Env) (fs : Fs) (tp : Transport) (pid : Nat)
    (tty : Option String) (stdin : String) : RunResult :=
  match pyJsonLoads stdin with
  | none => ⟨.clean 1, [], [], 0, false⟩
  | some (.obj kvs) => runMainObj env fs tp pid tty kvs
  | some _ => ⟨.crashed, [], [], 0, false⟩

set_option maxRecDepth 8192

/-! ### Claim-side definitions, written from the claims' words -/

/-- The C2 status table as the claim words it, amended only at the
permission_prompt subtype (where the source suppresses the event before a
status is assigned, so no canonical state exists): every other arm is
verbatim the claim's table. -/
def specStatusC2 (event nt : JValue) : Option String :=
  if jEqS event "UserPromptSubmit" then some "processing"
  else if jEqS event "PreToolUse" then some "running_tool"
  else if jEqS event "PostToolUse" then some "processing"
  else if jEqS event "PermissionRequest" then some "waiting_for_approval"
  else if jEqS event "Notification" then
    if jEqS nt "permission_prompt" then none
    else if jEqS nt "idle_prompt" then some "waiting_for_input"
    else some "notification"
  else if jEqS event "Stop" then some "waiting_for_input"
  else if jEqS event "SubagentStop" then some "waiting_for_input"
  else if jEqS event "SessionStart" then some "waiting_for_input"
  else if jEqS event "SessionEnd" then some "ended"
  else if jEqS event "PreCompact" then some "compacting"
  else some "unknown"

/-- The recognized event categories of the dispatch table. -/
def recognizedEvent (event : JValue) : Bool :=
  jEqS event "UserPromptSubmit" || jEqS event "PreToolUse" ||
  jEqS event "PostToolUse" || jEqS event "PermissionRequest" ||
  jEqS event "Notification" || jEqS event "Stop" ||
  jEqS event "SubagentStop" || jEqS event "SessionStart" ||
  jEqS event "SessionEnd" || jEqS event "PreCompact"

/-- From the claim's words for C1: the deny message is the reply's reason,
or the default justification text when the reason is absent or empty. -/
def specDenyMessageC1 (rkvs : List (String × JValue)) : JValue :=
  match pyGet rkvs "reason" with
  | none => .str DENY_DEFAULT
  | some r => if jEqS r "" then .str DENY_DEFAULT else r

/-- The deny artifact as the claim describes it: behavior deny and the
message of specDenyMessageC1. -/
def specDenyDocC1 (rkvs : List (String × JValue)) : JValue :=
  .obj [("hookSpecificOutput", .obj
    [("hookEventName", .str "PermissionRequest"),
     ("decision", .obj
       [("behavior", .str "deny"),
        ("message", specDenyMessageC1 rkvs)])])]

/-- From the claim's words for C5: what one line of the tail window
contributes — nothing unless it parses to a record that yields a turn (a
problematic line is merely skipped here, never aborting the scan). -/
def lineTurnC5 (line : String) : Option Msg :=
  match lineStep line with
  | some m => m
  | none => none

/-- From the claim's words for C5: the turns of the trailing window, in log
order. -/
def specTurnsC5 (lines : List String) : List Msg :=
  (pyTailSlice lines 100).filterMap lineTurnC5

/-- Whether a line makes the reader's loop fault (a parsed line whose entry
raises outside the inner except): the situation the counterexample for C5
exhibits and its amended theorem excludes. -/
def lineFaults (line : String) : Bool :=
  (lineStep line).isNone

/-- From the claim's words for C10: the first entry of the log root that is
a directory and contains the session's file. -/
def firstProjectWith (dirs : List PDir) (fname : String) : Option PFile :=
  match dirs.find? (fun d => d.isDir && d.files.any (fun f => f.name == fname)) with
  | none => none
  | some d => findFileNamed d.files fname

/-! ### Helper lemmas -/

/-- jEqS decides equality against a string constructor. -/
theorem jEqS_iff (v : JValue) (s : String) : jEqS v s = true ↔ v = .str s := by
  cases v <;> simp [jEqS]

/-- A state whose status is not waiting_for_approval is written and the
connection closed with no read, the returned value None. -/
theorem send_event_skip_read (env : Env) (tp : Transport) (st : CanonState)
    (h : st.status ≠ "waiting_for_approval") :
    (send_event env tp st).1 = .ok none ∧ SockOp.recv ∉ (send_event env tp st).2 := by
  unfold send_event
  have hb : (st.status == "waiting_for_approval") = false := beq_eq_false_iff_ne.mpr h
  by_cases h1 : tp.connectOk <;> by_cases h2 : tp.sendOk <;>
    simp [h1, h2, hb]

/-- The dispatch assigns every fall-through state one of the seven
non-blocking statuses. -/
theorem dispatch_normal_status (kvs : List (String × JValue)) (pid : Nat)
    (tty : Option String) (st : CanonState)
    (h : dispatch kvs pid tty = .normal st) :
    st.status ≠ "waiting_for_approval" := by
  simp only [dispatch] at h
  repeat' split at h
  all_goals first
    | exact DispatchResult.noConfusion h
    | (cases h; simp)

set_option maxHeartbeats 1000000 in
/-- Neither the permission state nor any fall-through state carries a
conversation when it leaves the dispatch. -/
theorem dispatch_conversation_none (kvs : List (String × JValue)) (pid : Nat)
    (tty : Option String) :
    (∀ st, dispatch kvs pid tty = .permission st → st.conversation = none)
    ∧ (∀ st, dispatch kvs pid tty = .normal st → st.conversation = none) := by
  constructor <;> intro st h <;>
    (simp only [dispatch] at h
     repeat' split at h) <;>
    first
      | exact DispatchResult.noConfusion h
      | (cases h; rfl)

/-- A permission state comes only from the PermissionRequest category. -/
theorem dispatch_permission_event (kvs : List (String × JValue)) (pid : Nat)
    (tty : Option String) (st : CanonState)
    (h : dispatch kvs pid tty = .permission st) :
    pyGetD kvs "hook_event_name" (.str "") = .str "PermissionRequest" := by
  simp only [dispatch] at h
  repeat' split at h
  all_goals first
    | exact DispatchResult.noConfusion h
    | (rw [← jEqS_iff]; assumption)

/-- get_jsonl_path cannot raise when the working directory value is a
string or falsy. -/
theorem get_jsonl_path_typed_ok (fs : Fs) (sid : JValue) (v : JValue)
    (h : (∃ s, v = .str s) ∨ pyTruthy v = false) :
    ∃ r, get_jsonl_path fs sid v = .ok r := by
  rcases h with ⟨s, rfl⟩ | h
  · unfold get_jsonl_path
    by_cases ht : pyTruthy (.str s) <;> simp [ht]
  · unfold get_jsonl_path
    simp [h]

/-- A truthy value of string shape is a nonempty string. -/
theorem pyTruthy_str (s : String) : pyTruthy (.str s) = !s.isEmpty := rfl

/-- An empty list has an empty tail slice for every limit. -/
theorem pyTailSlice_nil (limit : Nat) : pyTailSlice ([] : List Msg) limit = [] := by
  unfold pyTailSlice
  split <;> simp

/-- findFileNamed fails exactly when no file bears the name. -/
theorem findFileNamed_eq_none_iff (files : List PFile) (fname : String) :
    findFileNamed files fname = none ↔
      files.any (fun f => f.name == fname) = false := by
  induction files with
  | nil => simp [findFileNamed]
  | cons f rest ih =>
    unfold findFileNamed
    by_cases hf : f.name == fname <;> simp [hf, ih]


/-- The directory scan is the first directory that both is a directory and
holds the file, exactly as the claim words it. -/
theorem searchDirs_eq_firstProject (dirs : List PDir) (fname : String) :
    searchDirs dirs fname = firstProjectWith dirs fname := by
  induction dirs with
  | nil => rfl
  | cons d rest ih =>
    by_cases hd : d.isDir = true
    · cases hfn : findFileNamed d.files fname with
      | some f =>
        have hf : (d.files.any fun f => f.name == fname) = true := by
          rcases Bool.eq_false_or_eq_true (d.files.any fun f => f.name == fname) with hh | hh
          · exact hh
          · rw [(findFileNamed_eq_none_iff _ _).mpr hh] at hfn
            cases hfn
        unfold searchDirs firstProjectWith
        rw [List.find?_cons_of_pos _ (by simp [hd, hf]), if_pos hd, hfn]
        exact hfn.symm
      | none =>
        have hf : (d.files.any fun f => f.name == fname) = false :=
          (findFileNamed_eq_none_iff _ _).mp hfn
        unfold searchDirs firstProjectWith
        rw [List.find?_cons_of_neg _ (by simp [hd, hf]), if_pos hd, hfn]
        exact ih
    · unfold searchDirs firstProjectWith
      rw [List.find?_cons_of_neg _ (by simp [hd]), if_neg hd]
      exact ih

/-- If no directory holds the file the scan yields nothing. -/
theorem searchDirs_none (dirs : List PDir) (fname : String)
    (h : ∀ d ∈ dirs, findFileNamed d.files fname = none) :
    searchDirs dirs fname = none := by
  induction dirs with
  | nil => rfl
  | cons d rest ih =>
    unfold searchDirs
    have hd := h d (List.mem_cons_self d rest)
    rw [hd]
    by_cases hdir : d.isDir = true <;>
      simp [hdir, ih fun x hx => h x (List.mem_cons_of_mem d hx)]

/-- Under a fault-free window the reader's loop is a filterMap: every line
contributes its turn in order, appended after the accumulator. -/
theorem extractLoop_no_fault (ws : List String) (acc : List Msg)
    (h : ∀ l ∈ ws, lineFaults l = false) :
    extractLoop ws acc = acc ++ ws.filterMap lineTurnC5 := by
  induction ws generalizing acc with
  | nil => simp [extractLoop]
  | cons l rest ih =>
    have hl := h l (List.mem_cons_self l rest)
    have hrest : ∀ x ∈ rest, lineFaults x = false :=
      fun x hx => h x (List.mem_cons_of_mem l hx)
    unfold extractLoop
    rw [List.filterMap_cons]
    cases hs : lineStep l with
    | none =>
      unfold lineFaults at hl
      rw [hs] at hl
      cases hl
    | some m =>
      have ht : lineTurnC5 l = m := by
        unfold lineTurnC5
        rw [hs]
      rw [ht]
      cases m with
      | none => exact ih acc hrest
      | some msg =>
        show extractLoop rest (acc ++ [msg]) = acc ++ (msg :: List.filterMap lineTurnC5 rest)
        rw [ih (acc ++ [msg]) hrest, List.append_assoc]
        rfl

/-! ### The claims -/

/-- Claim C2, counterexample: a Notification whose subtype is
permission_prompt is suppressed before any status is assigned, so the
normalizer yields no canonical state at all, where the claim's table
("any other or absent subtype yields status notification") calls for
status notification. -/
theorem C2_counterexample :
    statusOf (dispatch
      [("hook_event_name", JValue.str "Notification"),
       ("notification_type", JValue.str "permission_prompt")] 1 none) = none
    ∧ statusOf (dispatch
      [("hook_event_name", JValue.str "Notification"),
       ("notification_type", JValue.str "permission_prompt")] 1 none)
        ≠ some "notification" :=
  ⟨rfl, by decide⟩

/-- Claim C2 (amended): for every raw event record the status the
normalizer assigns is exactly the claim's category table, except that a
Notification with subtype permission_prompt is suppressed and produces no
canonical state; and an unrecognized category yields status unknown with
none of the category-specific fields set. -/
theorem C2_status_table (kvs : List (String × JValue)) (pid : Nat)
    (tty : Option String) :
    statusOf (dispatch kvs pid tty)
      = specStatusC2 (pyGetD kvs "hook_event_name" (.str ""))
          (pyGetD kvs "notification_type" .null)
    ∧ (recognizedEvent (pyGetD kvs "hook_event_name" (.str "")) = false →
        ∃ st, dispatch kvs pid tty = .normal st
          ∧ st.status = "unknown" ∧ st.message = none ∧ st.tool = none
          ∧ st.tool_input = none ∧ st.tool_use_id = none
          ∧ st.notification_type = none ∧ st.conversation = none) := by
  constructor
  · simp only [dispatch, apply_ite statusOf]
    simp only [statusOf, specStatusC2,
      apply_ite (Option.some : String → Option String)]
  · intro hr
    simp only [recognizedEvent, Bool.or_eq_false_iff] at hr
    obtain ⟨⟨⟨⟨⟨⟨⟨⟨⟨h1, h2⟩, h3⟩, h4⟩, h5⟩, h6⟩, h7⟩, h8⟩, h9⟩, h10⟩ := hr
    refine ⟨⟨pyGetD kvs "session_id" (.str "unknown"), pyGetD kvs "cwd" (.str ""),
      pyGetD kvs "hook_event_name" (.str ""), pid, tty, "unknown",
      none, none, none, none, none, none⟩, ?_, rfl, rfl, rfl, rfl, rfl, rfl, rfl⟩
    simp [dispatch, h1, h2, h3, h4, h5, h6, h7, h8, h9, h10]

/-- Claim C2, witness: the unrecognized category FooBarEvent yields status
unknown with no category-specific fields. -/
theorem C2_witness :
    recognizedEvent (pyGetD [("hook_event_name", JValue.str "FooBarEvent")]
        "hook_event_name" (.str "")) = false
    ∧ ∃ st, dispatch [("hook_event_name", JValue.str "FooBarEvent")] 3 none = .normal st
        ∧ st.status = "unknown" ∧ st.message = none ∧ st.tool = none
        ∧ st.tool_input = none ∧ st.tool_use_id = none
        ∧ st.notification_type = none ∧ st.conversation = none :=
  ⟨by decide, (C2_status_table [("hook_event_name", JValue.str "FooBarEvent")] 3 none).2 (by decide)⟩

/-- Claim C8, counterexample: a remote-host value that is present but empty
selects the local Unix endpoint, where the claim says a present remote-host
yields a remote endpoint with that host. -/
theorem C8_counterexample :
    get_connection_config ⟨some "", none⟩ = .unix SOCKET_PATH
    ∧ get_connection_config ⟨some "", none⟩ ≠ .tcp "" DEFAULT_TCP_PORT :=
  ⟨rfl, fun h => ConnCfg.noConfusion h⟩

/-- Claim C8 (amended): an absent or empty remote-host value deterministically
selects the local endpoint with the fixed rendezvous path; a nonempty
remote-host selects a remote endpoint with that host and the configured
port, 52945 when none is configured. -/
theorem C8_transport_selector (env : Env) :
    (env.host = none → get_connection_config env = .unix SOCKET_PATH)
    ∧ (env.host = some "" → get_connection_config env = .unix SOCKET_PATH)
    ∧ (∀ h, env.host = some h → h ≠ "" →
        get_connection_config env = .tcp h (env.port.getD DEFAULT_TCP_PORT)) := by
  refine ⟨?_, ?_, ?_⟩
  · intro hh
    unfold get_connection_config
    rw [hh]
  · intro hh
    unfold get_connection_config
    rw [hh]
    rfl
  · intro h hh hne
    unfold get_connection_config
    rw [hh]
    have he : h.isEmpty = false := by
      rcases Bool.eq_false_or_eq_true h.isEmpty with hb | hb
      · exact absurd ((String.isEmpty_iff h).mp hb) hne
      · exact hb
    simp [he]

/-- Claim C8, witness: a nonempty host with an explicit port yields a TCP
endpoint with that host and port. -/
theorem C8_witness :
    get_connection_config ⟨some "mac", some 9999⟩ = .tcp "mac" 9999 :=
  (C8_transport_selector ⟨some "mac", some 9999⟩).2.2 "mac" rfl (by decide)

/-- Claim C9: a Notification record with subtype permission_prompt is
suppressed entirely: the process exits 0 at once, attempts no connection,
sends no state and writes nothing to standard output. -/
theorem C9_suppressed_notification (env : Env) (fs : Fs) (tp : Transport)
    (pid : Nat) (tty : Option String) (stdin : String)
    (kvs : List (String × JValue))
    (hin : pyJsonLoads stdin = some (.obj kvs))
    (hev : pyGetD kvs "hook_event_name" (.str "") = .str "Notification")
    (hnt : pyGetD kvs "notification_type" .null = .str "permission_prompt") :
    runMain env fs tp pid tty stdin = ⟨.clean 0, [], [], 0, false⟩ := by
  have hd : dispatch kvs pid tty = .suppressed := by
    simp only [dispatch, hev, hnt]
    simp [jEqS]
  unfold runMain
  rw [hin]
  show runMainObj env fs tp pid tty kvs = ⟨.clean 0, [], [], 0, false⟩
  unfold runMainObj
  rw [hd]

/-- Claim C9, witness at a concrete record. -/
theorem C9_witness :
    runMain ⟨some "mac", none⟩ ⟨true, [⟨"p", true, []⟩]⟩ ⟨true, true, none⟩ 5 none
      "\x7b\"hook_event_name\": \"Notification\", \"notification_type\": \"permission_prompt\"\x7d"
      = ⟨.clean 0, [], [], 0, false⟩ :=
  C9_suppressed_notification ⟨some "mac", none⟩ ⟨true, [⟨"p", true, []⟩]⟩
    ⟨true, true, none⟩ 5 none _
    [("hook_event_name", JValue.str "Notification"),
     ("notification_type", JValue.str "permission_prompt")] rfl rfl rfl

/-- Claim C10: locating the session log returns none whenever the supplied
working directory is falsy (empty or absent), even when a matching file
exists; and for any truthy (nonempty string) working directory the result
ignores the directory's value entirely — it is the first project directory
holding the session's file (the source computes encodings of cwd and never
uses them). -/
theorem C10_locate (fs : Fs) (sid : JValue) :
    (∀ v : JValue, pyTruthy v = false → get_jsonl_path fs sid v = .ok none)
    ∧ (∀ c1 c2 : String, c1 ≠ "" → c2 ≠ "" →
        get_jsonl_path fs sid (.str c1) = get_jsonl_path fs sid (.str c2))
    ∧ (∀ c : String, c ≠ "" →
        get_jsonl_path fs sid (.str c)
          = .ok (if fs.claudeDirExists then
                   firstProjectWith fs.projectDirs (pyStr sid ++ ".jsonl")
                 else none)) := by
  have key : ∀ c : String, c ≠ "" →
      get_jsonl_path fs sid (.str c)
        = .ok (if fs.claudeDirExists then
                 firstProjectWith fs.projectDirs (pyStr sid ++ ".jsonl")
               else none) := by
    intro c hc
    have ht : pyTruthy (.str c) = true := by
      rw [pyTruthy_str]
      rcases Bool.eq_false_or_eq_true c.isEmpty with hb | hb
      · exact absurd ((String.isEmpty_iff c).mp hb) hc
      · simp [hb]
    unfold get_jsonl_path
    rw [ht, searchDirs_eq_firstProject]
    rfl
  refine ⟨?_, ?_, key⟩
  · intro v hv
    unfold get_jsonl_path
    simp [hv]
  · intro c1 c2 h1 h2
    rw [key c1 h1, key c2 h2]

/-- Claim C10, witness: with a falsy working directory the log is not found
even though it exists, and two different nonempty working directories find
the same (first) project file. -/
theorem C10_witness :
    get_jsonl_path ⟨true, [⟨"p", true, [⟨"sess.jsonl", some []⟩]⟩]⟩ (.str "sess") (.str "") = .ok none
    ∧ get_jsonl_path ⟨true, [⟨"p", true, [⟨"sess.jsonl", some []⟩]⟩]⟩ (.str "sess") (.str "/a")
        = get_jsonl_path ⟨true, [⟨"p", true, [⟨"sess.jsonl", some []⟩]⟩]⟩ (.str "sess") (.str "/b")
    ∧ get_jsonl_path ⟨true, [⟨"p", true, [⟨"sess.jsonl", some []⟩]⟩]⟩ (.str "sess") (.str "/a")
        = .ok (if true then
                 firstProjectWith [⟨"p", true, [⟨"sess.jsonl", some []⟩]⟩] (pyStr (.str "sess") ++ ".jsonl")
               else none) :=
  ⟨(C10_locate ⟨true, [⟨"p", true, [⟨"sess.jsonl", some []⟩]⟩]⟩ (.str "sess")).1 (.str "") (by decide),
   (C10_locate ⟨true, [⟨"p", true, [⟨"sess.jsonl", some []⟩]⟩]⟩ (.str "sess")).2.1 "/a" "/b"
     (by decide) (by decide),
   (C10_locate ⟨true, [⟨"p", true, [⟨"sess.jsonl", some []⟩]⟩]⟩ (.str "sess")).2.2 "/a" (by decide)⟩

/-- Claim C6: a missing or unreadable log degrades to no conversation, not
an error — a None handle yields the empty sequence, a read or decode fault
over the file yields the empty sequence, and a missing log root or a
session file present in no project directory yields none. -/
theorem C6_degrades_to_empty (limit : Nat) (fs : Fs) (sid : JValue)
    (c : String) (f : PFile) :
    parse_jsonl_messages none limit = []
    ∧ (f.content = none → parse_jsonl_messages (some f) limit = [])
    ∧ (fs.claudeDirExists = false → get_jsonl_path fs sid (.str c) = .ok none)
    ∧ ((∀ d ∈ fs.projectDirs, findFileNamed d.files (pyStr sid ++ ".jsonl") = none) →
        get_jsonl_path fs sid (.str c) = .ok none) := by
  refine ⟨rfl, ?_, ?_, ?_⟩
  · intro h
    simp only [parse_jsonl_messages, h]
  · intro h
    unfold get_jsonl_path
    by_cases ht : pyTruthy (.str c) = true <;> simp [ht, h]
  · intro h
    unfold get_jsonl_path
    by_cases ht : pyTruthy (.str c) = true <;>
      by_cases hce : fs.claudeDirExists <;>
        simp [ht, hce, searchDirs_none _ _ h]

/-- Claim C6, witness: a None handle, an unreadable file, a missing root
and a missing session file all degrade to empty or none. -/
theorem C6_witness :
    parse_jsonl_messages none 7 = []
    ∧ parse_jsonl_messages (some ⟨"x.jsonl", none⟩) 7 = []
    ∧ get_jsonl_path ⟨false, []⟩ (.str "s") (.str "/w") = .ok none
    ∧ get_jsonl_path ⟨true, [⟨"p", true, [⟨"other.jsonl", some []⟩]⟩]⟩ (.str "s") (.str "/w")
        = .ok none :=
  ⟨(C6_degrades_to_empty 7 ⟨false, []⟩ (.str "s") "/w" ⟨"x.jsonl", none⟩).1,
   (C6_degrades_to_empty 7 ⟨false, []⟩ (.str "s") "/w" ⟨"x.jsonl", none⟩).2.1 rfl,
   (C6_degrades_to_empty 7 ⟨false, []⟩ (.str "s") "/w" ⟨"x.jsonl", none⟩).2.2.1 rfl,
   (C6_degrades_to_empty 7 ⟨true, [⟨"p", true, [⟨"other.jsonl", some []⟩]⟩]⟩ (.str "s") "/w"
     ⟨"x.jsonl", none⟩).2.2.2 (by intro d hd; rw [List.mem_singleton.mp hd]; rfl)⟩

/-- A concrete waiting state used by the transport counterexample. -/
def stWaitingEx : CanonState :=
  ⟨.str "s", .str "", .str "PermissionRequest", 1, none, "waiting_for_approval",
   none, some .null, some (.obj []), none, none, none⟩

/-- Claim C4, counterexample: a reply whose bytes are not valid UTF-8 (the
single byte 0xFF) makes send_event raise — response.decode() throws
UnicodeDecodeError, which the except clause (socket.error, OSError,
json.JSONDecodeError) does not cover — instead of returning none as the
claim demands for every transport-level failure. -/
theorem C4_counterexample :
    mainReply ⟨none, none⟩ ⟨true, true, some [0xFF]⟩ stWaitingEx = .error ()
    ∧ mainReply ⟨none, none⟩ ⟨true, true, some [0xFF]⟩ stWaitingEx ≠ .ok none :=
  ⟨rfl, fun h => Except.noConfusion h⟩

/-- Claim C4 (amended): send_event never raises except for one gap — a
non-empty reply that is not decodable as UTF-8.  When the state's status is
not waiting_for_approval no read follows the write and the result is none;
a failed connect, a failed send, an exception during recv (timeout or
reset), an empty reply and a decodable reply that is not valid JSON all
yield none; the undecodable non-empty reply alone escapes as a fault. -/
theorem C4_send_event (env : Env) (tp : Transport) (st : CanonState) :
    (st.status ≠ "waiting_for_approval" →
      (send_event env tp st).1 = .ok none ∧ SockOp.recv ∉ (send_event env tp st).2)
    ∧ (tp.connectOk = false → (send_event env tp st).1 = .ok none)
    ∧ (tp.connectOk = true → tp.sendOk = false → (send_event env tp st).1 = .ok none)
    ∧ (tp.recv = none → (send_event env tp st).1 = .ok none)
    ∧ (∀ bs s, tp.recv = some bs → decodeUtf8 bs = some s → pyJsonLoads s = none →
        (send_event env tp st).1 = .ok none)
    ∧ (∀ bs, st.status = "waiting_for_approval" → tp.connectOk = true →
        tp.sendOk = true → tp.recv = some bs → bs ≠ [] → decodeUtf8 bs = none →
        (send_event env tp st).1 = .error ()) := by
  refine ⟨send_event_skip_read env tp st, ?_, ?_, ?_, ?_, ?_⟩
  · intro hc
    unfold send_event
    simp [hc]
  · intro hc hs
    unfold send_event
    simp [hc, hs]
  · intro hr
    by_cases hc : tp.connectOk = true
    · by_cases hs : tp.sendOk = true
      · by_cases hw : st.status == "waiting_for_approval"
        · unfold send_event
          simp [hc, hs, hw, hr]
        · exact (send_event_skip_read env tp st (by simpa using hw)).1
      · unfold send_event
        simp [hc, Bool.eq_false_iff.mpr hs]
    · unfold send_event
      simp [Bool.eq_false_iff.mpr hc]
  · intro bs s hr hd hj
    by_cases hc : tp.connectOk = true
    · by_cases hs : tp.sendOk = true
      · by_cases hw : st.status == "waiting_for_approval"
        · unfold send_event
          by_cases hbs : bs.isEmpty <;> simp [hc, hs, hw, hr, hbs, hd, hj]
        · exact (send_event_skip_read env tp st (by simpa using hw)).1
      · unfold send_event
        simp [hc, Bool.eq_false_iff.mpr hs]
    · unfold send_event
      simp [Bool.eq_false_iff.mpr hc]
  · intro bs hw hc hs hr hne hd
    unfold send_event
    have hbs : bs.isEmpty = false := by
      rcases Bool.eq_false_or_eq_true bs.isEmpty with hb | hb
      · exact absurd (List.isEmpty_iff.mp hb) hne
      · exact hb
    simp [hc, hs, hw, hr, hbs, hd]

/-- Claim C4, witness: a non-waiting state is sent with no read and yields
none; a connect failure on a waiting state yields none; a malformed JSON
reply yields none. -/
theorem C4_witness :
    ("processing" ≠ "waiting_for_approval"
      ∧ (send_event ⟨none, none⟩ ⟨true, true, none⟩
          ⟨.str "s", .str "", .str "Stop", 1, none, "processing",
           none, none, none, none, none, none⟩).1 = .ok none
      ∧ SockOp.recv ∉ (send_event ⟨none, none⟩ ⟨true, true, none⟩
          ⟨.str "s", .str "", .str "Stop", 1, none, "processing",
           none, none, none, none, none, none⟩).2)
    ∧ (send_event ⟨none, none⟩ ⟨false, true, none⟩ stWaitingEx).1 = .ok none
    ∧ (send_event ⟨none, none⟩ ⟨true, true, some (asciiBytes "nonsense")⟩ stWaitingEx).1 = .ok none :=
  ⟨⟨by decide,
    (C4_send_event ⟨none, none⟩ ⟨true, true, none⟩
      ⟨.str "s", .str "", .str "Stop", 1, none, "processing",
       none, none, none, none, none, none⟩).1 (by decide)⟩,
   (C4_send_event ⟨none, none⟩ ⟨false, true, none⟩ stWaitingEx).2.1 rfl,
   (C4_send_event ⟨none, none⟩ ⟨true, true, some (asciiBytes "nonsense")⟩ stWaitingEx).2.2.2.2.1
     (asciiBytes "nonsense") "nonsense" rfl rfl rfl⟩

/-- On a reply whose reason is absent or a string — the shape the wire
protocol gives it — the claim's deny message and the source's truthiness
test coincide. -/
theorem specDenyMessage_eq (rkvs : List (String × JValue))
    (h : pyGet rkvs "reason" = none ∨ ∃ s, pyGet rkvs "reason" = some (.str s)) :
    specDenyMessageC1 rkvs
      = (if pyTruthy (pyGetD rkvs "reason" (.str "")) = true then
           pyGetD rkvs "reason" (.str "")
         else .str DENY_DEFAULT) := by
  unfold specDenyMessageC1 pyGetD
  rcases h with h | ⟨s, h⟩ <;> rw [h]
  · rfl
  · by_cases hse : s = ""
    · subst hse
      rfl
    · have ht : pyTruthy (.str s) = true := by
        rw [pyTruthy_str]
        rcases Bool.eq_false_or_eq_true s.isEmpty with hb | hb
        · exact absurd ((String.isEmpty_iff s).mp hb) hse
        · simp [hb]
      have hj : jEqS (.str s) "" = false := by
        rcases Bool.eq_false_or_eq_true (jEqS (.str s) "") with hb | hb
        · have := (jEqS_iff _ _).mp hb
          cases this
          exact absurd rfl hse
        · exact hb
      simp [ht, hj]

/-- Claim C1: for a permission-request event, once the reply is in, an
allow decision prints exactly the allow artifact and exits 0; a deny
decision prints exactly the deny artifact whose message is the reason, or
the default justification when the reason is absent or empty, and exits 0;
any other decision value (ask included), a falsy (empty) reply, and no
reply at all print nothing and exit 0. -/
theorem C1_decision_roundtrip (env : Env) (fs : Fs) (tp : Transport)
    (pid : Nat) (tty : Option String) (stdin : String)
    (kvs : List (String × JValue)) (st : CanonState)
    (hin : pyJsonLoads stdin = some (.obj kvs))
    (hd : dispatch kvs pid tty = .permission st) :
    (∀ rkvs, mainReply env tp st = .ok (some (.obj rkvs)) →
      pyTruthy (.obj rkvs) = true →
      ((pyGetD rkvs "decision" (.str "ask") = .str "allow" →
          (runMain env fs tp pid tty stdin).stdout = [allowDoc]
          ∧ (runMain env fs tp pid tty stdin).exit = .clean 0)
       ∧ (pyGetD rkvs "decision" (.str "ask") = .str "deny" →
          (pyGet rkvs "reason" = none ∨ ∃ s, pyGet rkvs "reason" = some (.str s)) →
          (runMain env fs tp pid tty stdin).stdout = [specDenyDocC1 rkvs]
          ∧ (runMain env fs tp pid tty stdin).exit = .clean 0)
       ∧ (pyGetD rkvs "decision" (.str "ask") ≠ .str "allow" →
          pyGetD rkvs "decision" (.str "ask") ≠ .str "deny" →
          (runMain env fs tp pid tty stdin).stdout = []
          ∧ (runMain env fs tp pid tty stdin).exit = .clean 0)))
    ∧ (mainReply env tp st = .ok none →
        (runMain env fs tp pid tty stdin).stdout = []
        ∧ (runMain env fs tp pid tty stdin).exit = .clean 0)
    ∧ (∀ v, mainReply env tp st = .ok (some v) → pyTruthy v = false →
        (runMain env fs tp pid tty stdin).stdout = []
        ∧ (runMain env fs tp pid tty stdin).exit = .clean 0) := by
  have hrun : runMain env fs tp pid tty stdin = permissionRun env tp st := by
    unfold runMain
    rw [hin]
    show runMainObj env fs tp pid tty kvs = _
    unfold runMainObj
    rw [hd]
  refine ⟨?_, ?_, ?_⟩
  · intro rkvs hrep htr
    have hbase : permissionOutcome (mainReply env tp st) =
        (if jEqS (pyGetD rkvs "decision" (.str "ask")) "allow" then
           ((.clean 0, [allowDoc]) : ExitStatus × List JValue)
         else if jEqS (pyGetD rkvs "decision" (.str "ask")) "deny" then
           (.clean 0, [denyDoc (pyGetD rkvs "reason" (.str ""))])
         else (.clean 0, [])) := by
      rw [hrep]
      simp only [permissionOutcome, htr, if_true]
    refine ⟨?_, ?_, ?_⟩
    · intro hall
      have hb : jEqS (pyGetD rkvs "decision" (.str "ask")) "allow" = true :=
        (jEqS_iff _ _).mpr hall
      rw [hrun]
      unfold permissionRun
      rw [hbase, if_pos hb]
      exact ⟨rfl, rfl⟩
    · intro hden hreason
      have hba : jEqS (pyGetD rkvs "decision" (.str "ask")) "allow" = false := by
        rcases Bool.eq_false_or_eq_true (jEqS (pyGetD rkvs "decision" (.str "ask")) "allow")
          with hb | hb
        · have hx := (jEqS_iff _ _).mp hb
          rw [hden] at hx
          simp at hx
        · exact hb
      have hbd : jEqS (pyGetD rkvs "decision" (.str "ask")) "deny" = true :=
        (jEqS_iff _ _).mpr hden
      have hmsg : denyDoc (pyGetD rkvs "reason" (.str "")) = specDenyDocC1 rkvs := by
        unfold denyDoc specDenyDocC1
        rw [specDenyMessage_eq rkvs hreason]
      rw [hrun]
      unfold permissionRun
      rw [hbase, if_neg (by simp [hba]), if_pos hbd, hmsg]
      exact ⟨rfl, rfl⟩
    · intro hna hnd
      have hba : jEqS (pyGetD rkvs "decision" (.str "ask")) "allow" = false := by
        rcases Bool.eq_false_or_eq_true (jEqS (pyGetD rkvs "decision" (.str "ask")) "allow")
          with hb | hb
        · exact absurd ((jEqS_iff _ _).mp hb) hna
        · exact hb
      have hbd : jEqS (pyGetD rkvs "decision" (.str "ask")) "deny" = false := by
        rcases Bool.eq_false_or_eq_true (jEqS (pyGetD rkvs "decision" (.str "ask")) "deny")
          with hb | hb
        · exact absurd ((jEqS_iff _ _).mp hb) hnd
        · exact hb
      rw [hrun]
      unfold permissionRun
      rw [hbase, if_neg (by simp [hba]), if_neg (by simp [hbd])]
      exact ⟨rfl, rfl⟩
  · intro hrep
    have hpr : permissionOutcome (mainReply env tp st) = (.clean 0, []) := by
      rw [hrep]
      rfl
    rw [hrun]
    unfold permissionRun
    rw [hpr]
    exact ⟨rfl, rfl⟩
  · intro v hrep htr
    have hpr : permissionOutcome (mainReply env tp st) = (.clean 0, []) := by
      rw [hrep]
      simp only [permissionOutcome, htr]
      rfl
    rw [hrun]
    unfold permissionRun
    rw [hpr]
    exact ⟨rfl, rfl⟩

/-- Concrete inputs for the C1 witness: a permission request over a
transport whose reply is a deny with no reason. -/
def stdinC1 : String :=
  "\x7b\"hook_event_name\": \"PermissionRequest\", \"tool_name\": \"Bash\"\x7d"

/-- The bindings stdinC1 parses to. -/
def kvsC1 : List (String × JValue) :=
  [("hook_event_name", .str "PermissionRequest"), ("tool_name", .str "Bash")]

/-- The canonical state the dispatch builds from kvsC1. -/
def stC1 : CanonState :=
  ⟨.str "unknown", .str "", .str "PermissionRequest", 7, none,
   "waiting_for_approval", none, some (.str "Bash"), some (.obj []),
   none, none, none⟩

/-- The transport replying with a deny carrying no reason. -/
def tpC1 : Transport :=
  ⟨true, true, some (asciiBytes "\x7b\"decision\": \"deny\"\x7d")⟩

/-- Claim C1, witness: the deny reply without a reason prints exactly one
deny artifact carrying the default justification text and exits 0. -/
theorem C1_witness :
    pyJsonLoads stdinC1 = some (.obj kvsC1)
    ∧ dispatch kvsC1 7 none = .permission stC1
    ∧ mainReply ⟨none, none⟩ tpC1 stC1 = .ok (some (.obj [("decision", JValue.str "deny")]))
    ∧ ((runMain ⟨none, none⟩ ⟨false, []⟩ tpC1 7 none stdinC1).stdout
          = [specDenyDocC1 [("decision", JValue.str "deny")]]
        ∧ (runMain ⟨none, none⟩ ⟨false, []⟩ tpC1 7 none stdinC1).exit = .clean 0)
    ∧ specDenyDocC1 [("decision", JValue.str "deny")]
        = .obj [("hookSpecificOutput", .obj
            [("hookEventName", .str "PermissionRequest"),
             ("decision", .obj
               [("behavior", .str "deny"),
                ("message", .str DENY_DEFAULT)])])] :=
  ⟨rfl, rfl, rfl,
   ((C1_decision_roundtrip ⟨none, none⟩ ⟨false, []⟩ tpC1 7 none stdinC1 kvsC1 stC1 rfl rfl).1
      [("decision", JValue.str "deny")] rfl rfl).2.1 rfl (Or.inl rfl),
   rfl⟩

/-- Claim C3, counterexample: standard input "42" is a parseable JSON
document, yet the process does not exit 0 — data.get on the parsed integer
raises AttributeError, an uncaught exception (CPython exits with status 1),
while the claim allows a nonzero exit only for unparseable input. -/
theorem C3_counterexample :
    pyJsonLoads "42" = some (.num 42)
    ∧ runMain ⟨none, none⟩ ⟨false, []⟩ ⟨true, true, none⟩ 1 none "42"
        = ⟨.crashed, [], [], 0, false⟩ :=
  ⟨rfl, rfl⟩

/-- Claim C3 (amended): unparseable standard input exits 1 with no
transport attempt; input parsing to a non-object crashes (nonzero exit)
also with no transport attempt; and an invocation whose record is an
object — with the working directory a string or falsy and, on the
permission path, a reply that does not fault — completes with exit 0. -/
theorem C3_exit_status (env : Env) (fs : Fs) (tp : Transport) (pid : Nat)
    (tty : Option String) (stdin : String) :
    (pyJsonLoads stdin = none →
        runMain env fs tp pid tty stdin = ⟨.clean 1, [], [], 0, false⟩)
    ∧ (∀ v, pyJsonLoads stdin = some v → (∀ kvs, v ≠ .obj kvs) →
        runMain env fs tp pid tty stdin = ⟨.crashed, [], [], 0, false⟩)
    ∧ (∀ kvs, pyJsonLoads stdin = some (.obj kvs) →
        ((∃ s, pyGetD kvs "cwd" (.str "") = .str s)
          ∨ pyTruthy (pyGetD kvs "cwd" (.str "")) = false) →
        (∀ st, dispatch kvs pid tty = .permission st →
          mainReply env tp st ≠ .error ()
          ∧ ∀ v, mainReply env tp st = .ok (some v) → pyTruthy v = true →
              ∃ rkvs, v = .obj rkvs) →
        (runMain env fs tp pid tty stdin).exit = .clean 0) := by
  refine ⟨?_, ?_, ?_⟩
  · intro h
    unfold runMain
    rw [h]
  · intro v h hno
    unfold runMain
    rw [h]
    cases v with
    | obj kvs => exact absurd rfl (hno kvs)
    | null => rfl
    | bool b => rfl
    | num n => rfl
    | str s => rfl
    | arr xs => rfl
  · intro kvs hin hcwd hreply
    unfold runMain
    rw [hin]
    show (runMainObj env fs tp pid tty kvs).exit = .clean 0
    cases hd : dispatch kvs pid tty with
    | suppressed =>
      unfold runMainObj
      rw [hd]
    | permission st =>
      have hrw : runMainObj env fs tp pid tty kvs = permissionRun env tp st := by
        unfold runMainObj
        rw [hd]
      rw [hrw]
      obtain ⟨hsafe, htyped⟩ := hreply st hd
      unfold permissionRun
      cases hrep : mainReply env tp st with
      | error e =>
        cases e
        exact absurd hrep hsafe
      | ok o =>
        cases o with
        | none => rfl
        | some v =>
          rcases Bool.eq_false_or_eq_true (pyTruthy v) with htr | htr
          · obtain ⟨rkvs, rfl⟩ := htyped v hrep htr
            have hb : permissionOutcome (Except.ok (some (JValue.obj rkvs))) =
                (if jEqS (pyGetD rkvs "decision" (.str "ask")) "allow" then
                   ((.clean 0, [allowDoc]) : ExitStatus × List JValue)
                 else if jEqS (pyGetD rkvs "decision" (.str "ask")) "deny" then
                   (.clean 0, [denyDoc (pyGetD rkvs "reason" (.str ""))])
                 else (.clean 0, [])) := by
              simp only [permissionOutcome, htr, if_true]
            show (permissionOutcome (Except.ok (some (JValue.obj rkvs)))).1 = .clean 0
            rw [hb]
            split
            · rfl
            · split <;> rfl
          · show (permissionOutcome (Except.ok (some v))).1 = .clean 0
            simp [permissionOutcome, htr]
    | normal st =>
      have hrw : runMainObj env fs tp pid tty kvs = normalRun env fs tp kvs st := by
        unfold runMainObj
        rw [hd]
      rw [hrw]
      have hst : st.status ≠ "waiting_for_approval" :=
        dispatch_normal_status kvs pid tty st hd
      have hffexit : ∀ (st2 : CanonState) (flag : Bool),
          st2.status = st.status → (fireAndForget env tp st2 flag).exit = .clean 0 := by
        intro st2 flag hs2
        unfold fireAndForget mainReply
        rw [(send_event_skip_read env tp st2 (hs2 ▸ hst)).1]
      simp only [normalRun]
      by_cases hrm : (is_remote_session env
          && eventIn4 (pyGetD kvs "hook_event_name" (.str ""))) = true
      · rw [if_pos hrm]
        obtain ⟨r, hr⟩ := get_jsonl_path_typed_ok fs
          (pyGetD kvs "session_id" (.str "unknown")) (pyGetD kvs "cwd" (.str "")) hcwd
        rw [hr]
        cases r with
        | none => exact hffexit st true rfl
        | some f =>
          show (fireAndForget env tp
            (if (parse_jsonl_messages (some f) 20).isEmpty = true then st
             else { st with conversation := some (parse_jsonl_messages (some f) 20) })
            true).exit = .clean 0
          exact hffexit _ true (by split <;> rfl)
      · rw [if_neg hrm]
        exact hffexit st false rfl

/-- Claim C3, witness: a SessionEnd record over a local configuration
completes with exit 0. -/
theorem C3_witness :
    pyJsonLoads "\x7b\"hook_event_name\": \"SessionEnd\"\x7d"
        = some (.obj [("hook_event_name", JValue.str "SessionEnd")])
    ∧ (runMain ⟨none, none⟩ ⟨false, []⟩ ⟨true, true, none⟩ 9 none
        "\x7b\"hook_event_name\": \"SessionEnd\"\x7d").exit = .clean 0 :=
  ⟨rfl,
   (C3_exit_status ⟨none, none⟩ ⟨false, []⟩ ⟨true, true, none⟩ 9 none
       "\x7b\"hook_event_name\": \"SessionEnd\"\x7d").2.2
     [("hook_event_name", JValue.str "SessionEnd")] rfl (Or.inl ⟨"", rfl⟩)
     (fun _ h => DispatchResult.noConfusion h)⟩

/-- Lines for the C5 counterexample: a valid turn, a line holding the JSON
document 7 (parseable, but not an object), and another valid turn. -/
def lnA : String := "\x7b\"type\": \"user\", \"message\": \"a\"\x7d\n"

/-- The non-object middle line. -/
def ln7 : String := "7\n"

/-- The trailing valid turn the source drops. -/
def lnB : String := "\x7b\"type\": \"user\", \"message\": \"b\"\x7d\n"

/-- The counterexample log file. -/
def fC5 : PFile := ⟨"s.jsonl", some [lnA, ln7, lnB]⟩

/-- Claim C5, counterexample: the line "7" parses as JSON but is no record;
entry.get on the integer raises AttributeError, which only the outer except
catches, so the scan aborts and the turn after it is lost — the reader
returns one turn where the claim's skip-and-keep reading yields two. -/
theorem C5_counterexample :
    parse_jsonl_messages (some fC5) 20 = [⟨"user", .str "a"⟩]
    ∧ pyTailSlice (specTurnsC5 [lnA, ln7, lnB]) 20
        = [⟨"user", .str "a"⟩, ⟨"user", .str "b"⟩]
    ∧ parse_jsonl_messages (some fC5) 20
        ≠ pyTailSlice (specTurnsC5 [lnA, ln7, lnB]) 20 := by
  refine ⟨rfl, rfl, ?_⟩
  intro h
  rw [show parse_jsonl_messages (some fC5) 20 = [⟨"user", .str "a"⟩] from rfl,
    show pyTailSlice (specTurnsC5 [lnA, ln7, lnB]) 20
        = [⟨"user", .str "a"⟩, ⟨"user", .str "b"⟩] from rfl] at h
  simpa using congrArg List.length h

/-- Claim C5 (amended): the reader looks only at the last 100 lines
(whatever the limit), and over a window in which every line that parses as
JSON yields an entry the loop can process — the situation the tail of a
torn log produces — it skips blank and unparseable lines silently and
returns the last limit turns in log order (all of them when limit is 0,
the slice the source's negative-index slicing yields). -/
theorem C5_extract_tail (f : PFile) (lines : List String) (limit : Nat)
    (hc : f.content = some lines)
    (hok : ∀ line ∈ pyTailSlice lines 100, lineFaults line = false) :
    parse_jsonl_messages (some f) limit = pyTailSlice (specTurnsC5 lines) limit
    ∧ (∀ (g : PFile) (glines : List String), g.content = some glines →
        pyTailSlice glines 100 = pyTailSlice lines 100 →
        parse_jsonl_messages (some g) limit = parse_jsonl_messages (some f) limit) := by
  have key : ∀ (h : PFile) (hl : List String), h.content = some hl →
      pyTailSlice hl 100 = pyTailSlice lines 100 →
      parse_jsonl_messages (some h) limit = pyTailSlice (specTurnsC5 lines) limit := by
    intro h hl hhc hwin
    simp only [parse_jsonl_messages, hhc]
    rw [hwin, extractLoop_no_fault _ [] hok, List.nil_append]
    unfold specTurnsC5
    by_cases he : (List.filterMap lineTurnC5 (pyTailSlice lines 100)).isEmpty = true
    · rw [if_pos he, List.isEmpty_iff.mp he]
      exact (pyTailSlice_nil limit).symm
    · rw [if_neg he]
  exact ⟨key f lines hc rfl,
    fun g gl hg hw => (key g gl hg hw).trans (key f lines hc rfl).symm⟩

/-- One valid turn line of the C5 fixture. -/
def fixLine (i : Nat) : String :=
  "\x7b\"type\": \"user\", \"message\": \"m" ++ toString i ++ "\"\x7d\n"

/-- The fixture log: 25 valid turns followed by two malformed lines. -/
def fixLines : List String :=
  (List.range 25).map fixLine ++ ["\x7bbroken\n", "also broken\n"]

/-- The fixture file. -/
def fixFile : PFile := ⟨"s.jsonl", some fixLines⟩

/-- The turn a fixture line yields. -/
def fixTurn (i : Nat) : Msg := ⟨"user", .str ("m" ++ toString i)⟩

/-- Claim C5, witness: on 25 valid turns followed by 2 malformed trailing
lines, limit 20 returns exactly the last 20 valid turns in original
order, the malformed lines causing no failure. -/
theorem C5_witness :
    fixFile.content = some fixLines
    ∧ (∀ line ∈ pyTailSlice fixLines 100, lineFaults line = false)
    ∧ parse_jsonl_messages (some fixFile) 20 = pyTailSlice (specTurnsC5 fixLines) 20
    ∧ parse_jsonl_messages (some fixFile) 20 = ((List.range 25).drop 5).map fixTurn :=
  ⟨rfl, by decide,
   (C5_extract_tail fixFile fixLines 20 rfl (by decide)).1,
   rfl⟩

/-- Every outcome of the permission round trip leaves the log reader flag
false and records exactly the one state sent. -/
theorem permissionRun_parts (env : Env) (tp : Transport) (st2 : CanonState) :
    (permissionRun env tp st2).logReaderInvoked = false
    ∧ (permissionRun env tp st2).sent = [st2] :=
  ⟨rfl, rfl⟩

/-- The fire-and-forget send records its flag and exactly the one state
sent, whatever the transport does. -/
theorem fireAndForget_parts (env : Env) (tp : Transport) (st2 : CanonState)
    (flag : Bool) :
    (fireAndForget env tp st2 flag).logReaderInvoked = flag
    ∧ (fireAndForget env tp st2 flag).sent = [st2] :=
  ⟨rfl, rfl⟩

/-- The filesystem of the C7 counterexample: one project directory holding
the session's log with one valid turn. -/
def fsC7 : Fs :=
  ⟨true, [⟨"proj", true,
    [⟨"sess1.jsonl", some ["\x7b\"type\": \"user\", \"message\": \"hi\"\x7d"]⟩]⟩]⟩

/-- The Stop record of the C7 counterexample. -/
def stdinC7 : String :=
  "\x7b\"hook_event_name\": \"Stop\", \"session_id\": \"sess1\", \"cwd\": \"/w\"\x7d"

/-- Claim C7, counterexample: with the remote-host value set to the empty
string the transport selector picks the local Unix endpoint, yet the log
tail reader runs and conversation turns are attached — the claim ties the
attach to the configuration selecting remote transport. -/
theorem C7_counterexample :
    get_connection_config ⟨some "", none⟩ = .unix SOCKET_PATH
    ∧ (runMain ⟨some "", none⟩ fsC7 ⟨true, true, none⟩ 7 none stdinC7).logReaderInvoked = true
    ∧ ((runMain ⟨some "", none⟩ fsC7 ⟨true, true, none⟩ 7 none stdinC7).sent.map
        (fun st => st.conversation)) = [some [⟨"user", .str "hi"⟩]] :=
  ⟨rfl, rfl, rfl⟩

/-- Claim C7 (amended): conversation turns are attached to the sent state
exactly when the remote-host variable is set (the is-not-None test, which
an empty string passes even though the selector then picks the local
endpoint), the category is one of Stop, UserPromptSubmit, SessionStart,
Notification, the session log is located, and the tail read with limit 20
is non-empty; when the remote-host variable is unset the log tail reader
never runs. -/
theorem C7_attach_iff (env : Env) (fs : Fs) (tp : Transport) (pid : Nat)
    (tty : Option String) (stdin : String) (kvs : List (String × JValue))
    (hin : pyJsonLoads stdin = some (.obj kvs)) :
    (env.host = none → (runMain env fs tp pid tty stdin).logReaderInvoked = false)
    ∧ (∀ st ∈ (runMain env fs tp pid tty stdin).sent,
        (st.conversation ≠ none ↔
          (is_remote_session env = true
           ∧ eventIn4 (pyGetD kvs "hook_event_name" (.str "")) = true
           ∧ ∃ f, get_jsonl_path fs (pyGetD kvs "session_id" (.str "unknown"))
                    (pyGetD kvs "cwd" (.str "")) = .ok (some f)
               ∧ parse_jsonl_messages (some f) 20 ≠ []))) := by
  cases hd : dispatch kvs pid tty with
  | suppressed =>
    have hrw : runMain env fs tp pid tty stdin = ⟨.clean 0, [], [], 0, false⟩ := by
      unfold runMain
      rw [hin]
      show runMainObj env fs tp pid tty kvs = _
      unfold runMainObj
      rw [hd]
    rw [hrw]
    exact ⟨fun _ => rfl, fun st h => absurd h (List.not_mem_nil st)⟩
  | permission st0 =>
    have hrw : runMain env fs tp pid tty stdin = permissionRun env tp st0 := by
      unfold runMain
      rw [hin]
      show runMainObj env fs tp pid tty kvs = _
      unfold runMainObj
      rw [hd]
    rw [hrw]
    refine ⟨fun _ => (permissionRun_parts env tp st0).1, ?_⟩
    intro st hmem
    rw [(permissionRun_parts env tp st0).2] at hmem
    rw [List.mem_singleton.mp hmem]
    have hconv : st0.conversation = none :=
      (dispatch_conversation_none kvs pid tty).1 st0 hd
    have hev := dispatch_permission_event kvs pid tty st0 hd
    constructor
    · intro hne
      exact absurd hconv hne
    · rintro ⟨_, h4, _⟩
      rw [hev] at h4
      simp [eventIn4, jEqS] at h4
  | normal st0 =>
    have hrw : runMain env fs tp pid tty stdin = normalRun env fs tp kvs st0 := by
      unfold runMain
      rw [hin]
      show runMainObj env fs tp pid tty kvs = _
      unfold runMainObj
      rw [hd]
    rw [hrw]
    have hconv0 : st0.conversation = none :=
      (dispatch_conversation_none kvs pid tty).2 st0 hd
    constructor
    · intro hhost
      have hrem : is_remote_session env = false := by
        simp [is_remote_session, hhost]
      simp only [normalRun]
      rw [if_neg (by simp [hrem])]
      exact (fireAndForget_parts env tp st0 false).1
    · intro st hmem
      simp only [normalRun] at hmem
      by_cases hrm : (is_remote_session env
          && eventIn4 (pyGetD kvs "hook_event_name" (.str ""))) = true
      · rw [if_pos hrm] at hmem
        rw [Bool.and_eq_true] at hrm
        obtain ⟨hrem, hin4⟩ := hrm
        cases hjp : get_jsonl_path fs (pyGetD kvs "session_id" (.str "unknown"))
            (pyGetD kvs "cwd" (.str "")) with
        | error e =>
          rw [hjp] at hmem
          exact absurd hmem (List.not_mem_nil st)
        | ok r =>
          rw [hjp] at hmem
          cases r with
          | none =>
            replace hmem : st ∈ (fireAndForget env tp st0 true).sent := hmem
            rw [(fireAndForget_parts env tp st0 true).2] at hmem
            rw [List.mem_singleton.mp hmem]
            constructor
            · intro hne
              exact absurd hconv0 hne
            · rintro ⟨_, _, f, hf, _⟩
              injection hf with hf2
              exact Option.noConfusion hf2
          | some f =>
            replace hmem : st ∈ (fireAndForget env tp
              (if (parse_jsonl_messages (some f) 20).isEmpty = true then st0
               else { st0 with conversation := some (parse_jsonl_messages (some f) 20) })
              true).sent := hmem
            by_cases hm : (parse_jsonl_messages (some f) 20).isEmpty = true
            · rw [if_pos hm] at hmem
              rw [(fireAndForget_parts env tp st0 true).2] at hmem
              rw [List.mem_singleton.mp hmem]
              constructor
              · intro hne
                exact absurd hconv0 hne
              · rintro ⟨_, _, g, hg, hne⟩
                injection hg with hg2
                injection hg2 with hg3
                rw [← hg3] at hne
                exact absurd (List.isEmpty_iff.mp hm) hne
            · rw [if_neg hm] at hmem
              rw [(fireAndForget_parts env tp _ true).2] at hmem
              rw [List.mem_singleton.mp hmem]
              constructor
              · intro _
                refine ⟨hrem, hin4, f, rfl, fun he => hm ?_⟩
                rw [he]
                rfl
              · intro _
                exact fun h0 => Option.noConfusion h0
      · rw [if_neg hrm] at hmem
        rw [(fireAndForget_parts env tp st0 false).2] at hmem
        rw [List.mem_singleton.mp hmem]
        constructor
        · intro hne
          exact absurd hconv0 hne
        · rintro ⟨h1, h2, _⟩
          refine absurd ?_ hrm
          rw [Bool.and_eq_true]
          exact ⟨h1, h2⟩

/-- Claim C7, witness: a remote host, a Stop record and a located log with
one turn attach that turn; the iff instance holds at the sent state. -/
theorem C7_witness :
    pyJsonLoads stdinC7
        = some (.obj [("hook_event_name", JValue.str "Stop"),
                      ("session_id", JValue.str "sess1"), ("cwd", JValue.str "/w")])
    ∧ ((⟨.str "sess1", .str "/w", .str "Stop", 7, none, "waiting_for_input",
         none, none, none, none, none,
         some [⟨"user", .str "hi"⟩]⟩ : CanonState).conversation ≠ none ↔
        (is_remote_session ⟨some "mac", none⟩ = true
         ∧ eventIn4 (pyGetD [("hook_event_name", JValue.str "Stop"),
              ("session_id", JValue.str "sess1"), ("cwd", JValue.str "/w")]
              "hook_event_name" (.str "")) = true
         ∧ ∃ f, get_jsonl_path fsC7
                  (pyGetD [("hook_event_name", JValue.str "Stop"),
                    ("session_id", JValue.str "sess1"), ("cwd", JValue.str "/w")]
                    "session_id" (.str "unknown"))
                  (pyGetD [("hook_event_name", JValue.str "Stop"),
                    ("session_id", JValue.str "sess1"), ("cwd", JValue.str "/w")]
                    "cwd" (.str "")) = .ok (some f)
             ∧ parse_jsonl_messages (some f) 20 ≠ [])) :=
  ⟨rfl,
   (C7_attach_iff ⟨some "mac", none⟩ fsC7 ⟨true, true, none⟩ 7 none stdinC7
       [("hook_event_name", JValue.str "Stop"), ("session_id", JValue.str "sess1"),
        ("cwd", JValue.str "/w")] rfl).2
     ⟨.str "sess1", .str "/w", .str "Stop", 7, none, "waiting_for_input",
      none, none, none, none, none, some [⟨"user", .str "hi"⟩]⟩
     (List.mem_singleton.mpr rfl)⟩
